import Mathlib

/-!
Verification of `backup_camera/_user_interface/user_interface.py`.

The file embeds the UI module shallowly:
* numpy/OpenCV images become `Mat` (a shape list and a flat pixel list);
* the Tk widget state touched by the module becomes the record `UIState`;
* each method becomes a Lean function on these values, with the calls the
  method makes into the application layer (`Application`, the event handler)
  recorded as an explicit list of `HandlerCall`s;
* the `after(20, ...)` rescheduling and the image display are recorded as a
  list of `UIEffect`s.

`ImageProcessingEngine.process_next_frame`, `Application` and
`ImageReceiver.get_available_sources` are not part of the source under
verification; where a property depends on them, they are abstracted as
function parameters or modelled from the specification (marked as such).
-/

namespace BackupCamera

/-- A numpy array as the module uses it: its shape tuple and its flattened
pixel data.  A colour frame has shape `[h, w, 3]`; the grayscale placeholder
produced by `np.full(self._display_size, 0, dtype=np.uint8)` has shape
`[h, w]`. -/
structure Mat where
  shape : List Nat
  data : List Nat
deriving DecidableEq, Repr

/-- `m.shape[0]` — image height. -/
def matHeight (m : Mat) : Nat := m.shape.getD 0 0

/-- `m.shape[1]` — image width. -/
def matWidth (m : Mat) : Nat := m.shape.getD 1 0

/-- Channel count of a raster buffer: the third axis of the shape when present,
`1` for a 2-dimensional (grayscale) buffer. -/
def matChannels (m : Mat) : Nat := m.shape.getD 2 1

/-- Line 36: `self._display_size = (display_size[1], display_size[0])` — the
constructor argument is `(width, height)` and the stored display size is
`(height, width)`.  All functions below take the stored `(height, width)`
pair. -/
def mkDisplaySize (display_size : Nat × Nat) : Nat × Nat :=
  (display_size.2, display_size.1)

/-- Model of OpenCV `cv.putText`: it writes glyph pixels into the image data
and returns the image; it never changes the shape.  The glyph raster itself is
outside the verified source, so it is an arbitrary data transformation
`render`, universally quantified in the theorems below. -/
def cvPutText (render : List Nat → List Nat) (img : Mat) : Mat :=
  { shape := img.shape, data := render img.data }

/-- Lines 192–203, `_generate_placeholder_image`:
`np.full(self._display_size, 0, dtype=np.uint8)` builds an all-zero buffer of
shape `(height, width)` — two axes, no channel axis — and `cv.putText` draws
the `<NO VIDEO TO DISPLAY>` caption onto it. -/
def generate_placeholder_image (render : List Nat → List Nat)
    (display_size : Nat × Nat) : Mat :=
  cvPutText render
    { shape := [display_size.1, display_size.2]
      data := List.replicate (display_size.1 * display_size.2) 0 }

/-- Lines 181–183 of `_updateVideoFrame`: the frame actually displayed.
`if video_frame is None or video_frame.shape[0] != self._display_size[0]
or video_frame.shape[1] != self._display_size[1]:` the frame is replaced by
the generated placeholder; otherwise it is kept as is. -/
def updatedFrame (render : List Nat → List Nat) (display_size : Nat × Nat)
    (video_frame : Option Mat) : Mat :=
  match video_frame with
  | none => generate_placeholder_image render display_size
  | some f =>
      if matHeight f ≠ display_size.1 ∨ matWidth f ≠ display_size.2 then
        generate_placeholder_image render display_size
      else f

/-- An externally visible effect of one run of `_updateVideoFrame`. -/
inductive UIEffect where
  /-- Lines 184–186: the (possibly substituted) frame is converted to a
  `PhotoImage` and shown in the display label. -/
  | displayImage (m : Mat)
  /-- Line 187: `self._display.after(20, ...)` schedules the next
  processing-and-update callback after the given number of milliseconds. -/
  | schedule (delayMs : Nat)
deriving DecidableEq, Repr

/-- Lines 180–187, `_updateVideoFrame`, as its trace of effects: display the
(possibly substituted) frame, then unconditionally schedule the next
invocation 20 ms later. -/
def updateVideoFrame (render : List Nat → List Nat) (display_size : Nat × Nat)
    (video_frame : Option Mat) : List UIEffect :=
  [UIEffect.displayImage (updatedFrame render display_size video_frame),
   UIEffect.schedule 20]

/-- The delays of the `after` calls issued in a trace of effects. -/
def scheduledDelays (effects : List UIEffect) : List Nat :=
  effects.filterMap fun e =>
    match e with
    | UIEffect.schedule d => some d
    | _ => none

/- ### C1 -/

/-- C1: for every frame value passed to `_updateVideoFrame`, if the frame is
`None` or its height or width differs from the configured display size, the
displayed frame is the generated placeholder, whose height and width equal the
configured display size; otherwise the frame is displayed unchanged. -/
theorem updateVideoFrame_placeholder_substitution
    (render : List Nat → List Nat) (display_size : Nat × Nat)
    (video_frame : Option Mat) :
    ((video_frame = none ∨
        ∃ f, video_frame = some f ∧
          (matHeight f ≠ display_size.1 ∨ matWidth f ≠ display_size.2)) →
      updatedFrame render display_size video_frame =
        generate_placeholder_image render display_size ∧
      matHeight (updatedFrame render display_size video_frame) = display_size.1 ∧
      matWidth (updatedFrame render display_size video_frame) = display_size.2) ∧
    (∀ f, video_frame = some f → matHeight f = display_size.1 →
      matWidth f = display_size.2 →
      updatedFrame render display_size video_frame = f) := by
  have hshape : (generate_placeholder_image render display_size).shape =
      [display_size.1, display_size.2] := rfl
  constructor
  · intro h
    have hrepl : updatedFrame render display_size video_frame =
        generate_placeholder_image render display_size := by
      rcases h with h | ⟨f, hf, hmm⟩
      · simp [updatedFrame, h]
      · simp [updatedFrame, hf, hmm]
    refine ⟨hrepl, ?_, ?_⟩
    · rw [hrepl]; simp [matHeight, hshape]
    · rw [hrepl]; simp [matWidth, hshape]
  · intro f hf hh hw
    simp [updatedFrame, hf, hh, hw]

/-- Witness for C1 at concrete inputs: a `None` frame on a 2×3 display is
replaced by the 2×3 placeholder, and a matching 2×3 frame passes through
unchanged. -/
theorem updateVideoFrame_placeholder_substitution_witness :
    (updatedFrame id (2, 3) none = generate_placeholder_image id (2, 3) ∧
      matHeight (updatedFrame id (2, 3) none) = 2 ∧
      matWidth (updatedFrame id (2, 3) none) = 3) ∧
    updatedFrame id (2, 3) (some ⟨[2, 3, 3], List.replicate 18 5⟩) =
      ⟨[2, 3, 3], List.replicate 18 5⟩ :=
  ⟨(updateVideoFrame_placeholder_substitution id (2, 3) none).1 (Or.inl rfl),
   (updateVideoFrame_placeholder_substitution id (2, 3)
      (some ⟨[2, 3, 3], List.replicate 18 5⟩)).2 _ rfl (by decide) (by decide)⟩

/- ### C2 -/

/-- A buffer whose height and width match a 2×3 display but which has 4
channels. -/
def fourChannelFrame : Mat := { shape := [2, 3, 4], data := List.replicate 24 7 }

/-- C2 counterexample: the presentation layer does not enforce the
3-channel/8-bit part of the `Frame` contract.  On a 2×3 display, a buffer of
shape `[2, 3, 4]` (4 channels, not 3) is displayed unchanged rather than
replaced, and the substituted placeholder itself is a 2-dimensional grayscale
buffer, not a 3-channel one. -/
theorem displayed_frame_channels_not_checked :
    matChannels fourChannelFrame ≠ 3 ∧
    updatedFrame id (2, 3) (some fourChannelFrame) = fourChannelFrame ∧
    matChannels (generate_placeholder_image id (2, 3)) ≠ 3 := by
  decide

/-- C2 amended: every frame buffer the presentation layer displays — the
substituted placeholder included — matches the configured display
height×width; only height and width are checked, so the channel count is not
enforced and the placeholder is single-channel. -/
theorem displayed_frame_matches_display_size
    (render : List Nat → List Nat) (display_size : Nat × Nat)
    (video_frame : Option Mat) :
    matHeight (updatedFrame render display_size video_frame) = display_size.1 ∧
    matWidth (updatedFrame render display_size video_frame) = display_size.2 := by
  match video_frame with
  | none =>
      exact ⟨rfl, rfl⟩
  | some f =>
      by_cases h : matHeight f ≠ display_size.1 ∨ matWidth f ≠ display_size.2
      · simp only [updatedFrame, if_pos h]
        exact ⟨rfl, rfl⟩
      · push_neg at h
        have hcond : ¬(matHeight f ≠ display_size.1 ∨ matWidth f ≠ display_size.2) := by
          rw [not_or, not_ne_iff, not_ne_iff]; exact h
        simp only [updatedFrame, if_neg hcond]
        exact ⟨h.1, h.2⟩

/- ### C4 -/

/-- C4: every execution of `_updateVideoFrame`, whatever the input frame
(valid, `None`, or size-mismatched), issues exactly one `after` call, with a
20 ms delay — the tick cadence never stops on a per-frame fault. -/
theorem updateVideoFrame_schedules_exactly_one_tick
    (render : List Nat → List Nat) (display_size : Nat × Nat)
    (video_frame : Option Mat) :
    scheduledDelays (updateVideoFrame render display_size video_frame) = [20] := by
  cases video_frame <;> rfl

/- ### C3: the display loop over time -/

/-- The live configuration in effect at display event `n`.  `ch k` is the
configuration change (if any) that a UI callback delivers during the 20 ms
interval between display events `k` and `k + 1`; Tk runs those callbacks on
the same event loop as the `after` callbacks, so a change lands strictly
between two display events. -/
def configAt {Config : Type} (c0 : Config) (ch : Nat → Option Config) :
    Nat → Config
  | 0 => c0
  | n + 1 =>
      match ch n with
      | some c => c
      | none => configAt c0 ch n

/-- Lines 170–172 and 187: the frame shown at display event `n`.
`show()` evaluates `self._video_source.process_next_frame()` for the first
display, and each `_updateVideoFrame` evaluates
`process_next_frame()` immediately — it is the eagerly evaluated default
argument `frame=self._video_source.process_next_frame()` of the lambda passed
to `after(20, ...)` — so the frame shown at event `n + 1` is processed at
event `n`, under the configuration in effect at event `n`, before the
interval in which a change may arrive.  `process c k` abstracts
`ImageProcessingEngine.process_next_frame` at tick `k` under configuration
`c`. -/
def displayedFrameAt {Config : Type} (process : Config → Nat → Mat)
    (c0 : Config) (ch : Nat → Option Config) : Nat → Mat
  | 0 => process c0 0
  | n + 1 => process (configAt c0 ch n) (n + 1)

/-- A 1×1 frame with pixel value 1. -/
def matOne : Mat := { shape := [1, 1], data := [1] }

/-- A 1×1 frame with pixel value 0. -/
def matZero : Mat := { shape := [1, 1], data := [0] }

/-- A processing engine over a Boolean configuration: the produced frame is
`matOne` when the configuration flag is set, `matZero` otherwise. -/
def procEx : Bool → Nat → Mat := fun c _ => if c then matOne else matZero

/-- A change schedule that flips the configuration flag to `true` during the
interval between display events 0 and 1, and delivers nothing afterwards. -/
def chEx : Nat → Option Bool := fun n => if n = 0 then some true else none

/-- C3 counterexample: a configuration change issued between the display of
frame 0 and the display of frame 1 is NOT reflected in frame 1.  The
configuration in effect at event 1 is already `true`, yet the frame shown at
event 1 is the one pre-processed under `false` at event 0 — line 187
evaluates `process_next_frame()` as the default argument of the scheduled
lambda, one full tick before the frame is shown. -/
theorem config_change_not_in_next_frame :
    configAt false chEx 1 = true ∧
    displayedFrameAt procEx false chEx 1 = matZero ∧
    procEx (configAt false chEx 1) 1 = matOne ∧
    matZero ≠ matOne := by
  decide

/-- C3 amended: a configuration change issued during the inter-tick interval
after display event `n` takes effect at display event `n + 2` — the tick
after next, not the next tick — because the frame for event `n + 1` was
already processed when event `n` was displayed. -/
theorem config_change_in_second_next_frame {Config : Type}
    (process : Config → Nat → Mat) (c0 : Config) (ch : Nat → Option Config)
    (n : Nat) (c : Config) (h : ch n = some c) :
    displayedFrameAt process c0 ch (n + 2) = process c (n + 2) := by
  show process (configAt c0 ch (n + 1)) (n + 2) = process c (n + 2)
  simp [configAt, h]

/-- Witness for the amended C3: with the concrete engine and change schedule
above, the change delivered during interval 0 is visible in displayed
frame 2. -/
theorem config_change_in_second_next_frame_witness :
    chEx 0 = some true ∧ displayedFrameAt procEx false chEx 2 = procEx true 2 :=
  ⟨by decide, config_change_in_second_next_frame procEx false chEx 0 true (by decide)⟩

/- ### UI state machine (menus, mode, properties frames) -/

/-- The three operating modes; `value` is the integer each mode's radiobutton
writes into `self._selected_camera_mode` (lines 150–167). -/
inductive OperatingMode where
  | parkAssistant
  | rearviewMirror
  | configuration
deriving DecidableEq, Repr

/-- Radio values from `_init_camera_mode_menu`: Park assistant → 0,
Rearview mirror → 1, Configuration → 2. -/
def OperatingMode.value : OperatingMode → Int
  | .parkAssistant => 0
  | .rearviewMirror => 1
  | .configuration => 2

/-- A call the UI makes into the event handler (`self._event_handler`, the
parent `Application`). -/
inductive HandlerCall where
  /-- Line 128: `self._event_handler.set_guidelines_visibility(...)`. -/
  | set_guidelines_visibility (hidden : Bool)
  /-- Line 94: `self._event_handler.change_mute_sounds`. -/
  | change_mute_sounds
  /-- Line 140: `self._event_handler.set_source(source_index)`. -/
  | set_source (identifier : Int)
deriving DecidableEq, Repr

/-- The Tk state the module manipulates: the two `BooleanVar`s, the two
`IntVar`s, the mode label text, the menubar entries (entry 0 is the tearoff
entry Tk adds to a default menu, so `index('end')` is `menubar.length - 1`),
the MUTED label placement, and the placement of the three properties
frames. -/
structure UIState where
  guidelines_hidden : Bool
  mute_sounds : Bool
  selected_camera_mode : Int
  selected_source_index : Int
  mode_label : String
  menubar : List String
  mute_label_visible : Bool
  image_props_visible : Bool
  guidelines_props_visible : Bool
  detection_props_visible : Bool
deriving DecidableEq, Repr

/-- Lines 102–108, `_hide_properties_frame`: an `if`/`elif`/`elif` chain that
forgets the placement of the first currently viewable properties frame, in
the order guidelines, image, detection. -/
def hide_properties_frame (s : UIState) : UIState :=
  if s.guidelines_props_visible then { s with guidelines_props_visible := false }
  else if s.image_props_visible then { s with image_props_visible := false }
  else if s.detection_props_visible then { s with detection_props_visible := false }
  else s

/-- Lines 110–113, `_reload_default_layout`: if `self._menubar.index('end')`
exceeds 2 (tearoff, Mode, Source), delete the last menubar entry (the
Configuration cascade), then hide any open properties frame. -/
def reload_default_layout (s : UIState) : UIState :=
  let s1 := if 2 < s.menubar.length - 1 then { s with menubar := s.menubar.dropLast } else s
  hide_properties_frame s1

/-- Lines 63–65, `_enter_mirror_mode`. -/
def enter_mirror_mode (s : UIState) : UIState :=
  { reload_default_layout s with mode_label := "REARVIEW MIRROR" }

/-- Lines 67–69, `_enter_park_assistant_mode`. -/
def enter_park_assistant_mode (s : UIState) : UIState :=
  { reload_default_layout s with mode_label := "PARK ASSISTANT" }

/-- Lines 71–100, `_enter_config_mode`: reload the default layout, set the
mode label, build the Configuration menu and add it as a menubar cascade.
Building the menu registers callbacks but invokes none of them. -/
def enter_config_mode (s : UIState) : UIState :=
  let s1 := reload_default_layout s
  { s1 with
      mode_label := "CONFIGURATION"
      menubar := s1.menubar ++ ["Configuration"] }

/-- A user-driven event handled by the module: the menu radiobuttons and
checkbuttons, the Configuration-menu commands, and the `mute()` method the
application calls after the mute flag changes. -/
inductive UIEvent where
  /-- Clicking a Mode radiobutton (lines 150–167): Tk writes the radio value
  into the variable and then runs the command (`_enter_..._mode`). -/
  | select_mode (m : OperatingMode)
  /-- Configuration menu command `Open image properties` (lines 115–117). -/
  | open_image_properties
  /-- Configuration menu command `Open guidelines properties`
  (lines 119–121). -/
  | open_guidelines_properties
  /-- Configuration menu command `Open detection properties`
  (lines 123–125). -/
  | open_detection_properties
  /-- Clicking the `Guidlines hidden` checkbutton (lines 81–85): Tk toggles
  the `BooleanVar` and then runs `change_guidelines_visibility`
  (lines 127–128). -/
  | toggle_guidelines_hidden
  /-- Clicking the `Mute alerts` checkbutton (lines 91–95): Tk toggles the
  `BooleanVar` and then runs `self._event_handler.change_mute_sounds`. -/
  | toggle_mute_alerts
  /-- Clicking a Source radiobutton (lines 136–141): Tk writes the source
  identifier into the variable and runs `set_source(source_index)`. -/
  | select_source (identifier : Int)
  /-- Lines 174–178, `mute()`: place the MUTED label iff the mute flag is
  set. -/
  | apply_mute
deriving DecidableEq, Repr

/-- One event handled: the successor state and the calls made into the event
handler while handling it. -/
def step (s : UIState) : UIEvent → UIState × List HandlerCall
  | .select_mode m =>
      let s1 := { s with selected_camera_mode := m.value }
      (match m with
       | .parkAssistant => enter_park_assistant_mode s1
       | .rearviewMirror => enter_mirror_mode s1
       | .configuration => enter_config_mode s1,
       [])
  | .open_image_properties =>
      ({ hide_properties_frame s with image_props_visible := true }, [])
  | .open_guidelines_properties =>
      ({ hide_properties_frame s with guidelines_props_visible := true }, [])
  | .open_detection_properties =>
      ({ hide_properties_frame s with detection_props_visible := true }, [])
  | .toggle_guidelines_hidden =>
      let s1 := { s with guidelines_hidden := !s.guidelines_hidden }
      (s1, [HandlerCall.set_guidelines_visibility s1.guidelines_hidden])
  | .toggle_mute_alerts =>
      ({ s with mute_sounds := !s.mute_sounds }, [HandlerCall.change_mute_sounds])
  | .select_source i =>
      ({ s with selected_source_index := i }, [HandlerCall.set_source i])
  | .apply_mute =>
      ({ s with mute_label_visible := s.mute_sounds }, [])

/-- Lines 146–168, `_init_camera_mode_menu`: create the Mode menu, set the
mode variable to 1, add the three radiobuttons (registering their commands
without running them) and add the cascade to the menubar. -/
def init_camera_mode_menu (s : UIState) : UIState :=
  { s with selected_camera_mode := 1, menubar := s.menubar ++ ["Mode"] }

/-- Lines 130–144, `_init_source_menu`: create the Source menu and its
variable, add one radiobutton per available source (registering commands
without running them — so no `set_source` call is made), set the variable to
`-2` and add the cascade to the menubar.  `sources` abstracts
`ImageReceiver.get_available_sources()`, which is outside the verified
source. -/
def init_source_menu (_sources : List (String × Int)) (s : UIState) :
    UIState × List HandlerCall :=
  ({ s with selected_source_index := -2, menubar := s.menubar ++ ["Source"] }, [])

/-- Lines 26–61, `UserInteface.__init__`: fresh Tk variables
(`BooleanVar`s at `False`, `IntVar`s at 0), an empty menubar (holding only
its tearoff entry), the mode and source menus, a blank mode label, the MUTED
label not packed, the three properties frames constructed but not placed,
and finally `_enter_mirror_mode()`. -/
def initUI (sources : List (String × Int)) : UIState × List HandlerCall :=
  let s0 : UIState :=
    { guidelines_hidden := false
      mute_sounds := false
      selected_camera_mode := 0
      selected_source_index := 0
      mode_label := ""
      menubar := ["tearoff"]
      mute_label_visible := false
      image_props_visible := false
      guidelines_props_visible := false
      detection_props_visible := false }
  let s1 := init_camera_mode_menu s0
  let (s2, calls) := init_source_menu sources s1
  (enter_mirror_mode s2, calls)

/-- Fold one event into a (state, handler-call log) pair. -/
def stepPair (p : UIState × List HandlerCall) (e : UIEvent) :
    UIState × List HandlerCall :=
  let r := step p.1 e
  (r.1, p.2 ++ r.2)

/-- The state and accumulated handler calls after the UI is constructed and a
sequence of events is handled. -/
def runEvents (sources : List (String × Int)) (es : List UIEvent) :
    UIState × List HandlerCall :=
  es.foldl stepPair (initUI sources)

/-- Number of properties frames currently placed. -/
def propsCount (s : UIState) : Nat :=
  (if s.image_props_visible then 1 else 0) +
  (if s.guidelines_props_visible then 1 else 0) +
  (if s.detection_props_visible then 1 else 0)

theorem propsCount_eq_zero (s : UIState) :
    propsCount s = 0 ↔
      s.image_props_visible = false ∧ s.guidelines_props_visible = false ∧
        s.detection_props_visible = false := by
  cases hi : s.image_props_visible <;> cases hg : s.guidelines_props_visible <;>
    cases hd : s.detection_props_visible <;> simp [propsCount, hi, hg, hd]

theorem hide_properties_frame_count (s : UIState) (h : propsCount s ≤ 1) :
    propsCount (hide_properties_frame s) = 0 := by
  cases hg : s.guidelines_props_visible <;> cases hi : s.image_props_visible <;>
    cases hd : s.detection_props_visible <;>
      simp_all [propsCount, hide_properties_frame]

theorem hide_properties_frame_fields (s : UIState) :
    (hide_properties_frame s).guidelines_hidden = s.guidelines_hidden ∧
    (hide_properties_frame s).mute_sounds = s.mute_sounds ∧
    (hide_properties_frame s).selected_camera_mode = s.selected_camera_mode ∧
    (hide_properties_frame s).selected_source_index = s.selected_source_index ∧
    (hide_properties_frame s).mode_label = s.mode_label ∧
    (hide_properties_frame s).menubar = s.menubar ∧
    (hide_properties_frame s).mute_label_visible = s.mute_label_visible := by
  unfold hide_properties_frame
  split_ifs <;> exact ⟨rfl, rfl, rfl, rfl, rfl, rfl, rfl⟩

theorem reload_default_layout_count (s : UIState) (h : propsCount s ≤ 1) :
    propsCount (reload_default_layout s) = 0 := by
  unfold reload_default_layout
  split_ifs with hmb
  · exact hide_properties_frame_count _ (by simpa [propsCount] using h)
  · exact hide_properties_frame_count _ h

theorem reload_default_layout_selected (s : UIState) :
    (reload_default_layout s).selected_camera_mode = s.selected_camera_mode := by
  unfold reload_default_layout
  split_ifs <;> exact (hide_properties_frame_fields _).2.2.1

theorem step_selected_camera_mode (s : UIState) (e : UIEvent) :
    (step s e).1.selected_camera_mode = s.selected_camera_mode ∨
    ∃ m : OperatingMode,
      (step s e).1.selected_camera_mode = OperatingMode.value m := by
  cases e with
  | select_mode m =>
      refine Or.inr ⟨m, ?_⟩
      cases m <;>
        simp [step, enter_park_assistant_mode, enter_mirror_mode,
          enter_config_mode, reload_default_layout_selected]
  | open_image_properties =>
      exact Or.inl (hide_properties_frame_fields s).2.2.1
  | open_guidelines_properties =>
      exact Or.inl (hide_properties_frame_fields s).2.2.1
  | open_detection_properties =>
      exact Or.inl (hide_properties_frame_fields s).2.2.1
  | toggle_guidelines_hidden => exact Or.inl rfl
  | toggle_mute_alerts => exact Or.inl rfl
  | select_source i => exact Or.inl rfl
  | apply_mute => exact Or.inl rfl

theorem step_select_mode_value (s : UIState) (m : OperatingMode) :
    (step s (UIEvent.select_mode m)).1.selected_camera_mode =
      OperatingMode.value m := by
  cases m <;>
    simp [step, enter_park_assistant_mode, enter_mirror_mode, enter_config_mode,
      reload_default_layout_selected]

theorem step_props_le_one (s : UIState) (e : UIEvent) (h : propsCount s ≤ 1) :
    propsCount (step s e).1 ≤ 1 := by
  cases e with
  | select_mode m =>
      have h0 : propsCount (step s (UIEvent.select_mode m)).1 = 0 := by
        cases m with
        | parkAssistant => exact reload_default_layout_count _ h
        | rearviewMirror => exact reload_default_layout_count _ h
        | configuration => exact reload_default_layout_count _ h
      omega
  | open_image_properties =>
      have h0 := (propsCount_eq_zero _).mp (hide_properties_frame_count s h)
      simp [step, propsCount, h0.1, h0.2.1, h0.2.2]
  | open_guidelines_properties =>
      have h0 := (propsCount_eq_zero _).mp (hide_properties_frame_count s h)
      simp [step, propsCount, h0.1, h0.2.1, h0.2.2]
  | open_detection_properties =>
      have h0 := (propsCount_eq_zero _).mp (hide_properties_frame_count s h)
      simp [step, propsCount, h0.1, h0.2.1, h0.2.2]
  | toggle_guidelines_hidden => simpa [step, propsCount] using h
  | toggle_mute_alerts => simpa [step, propsCount] using h
  | select_source i => simpa [step, propsCount] using h
  | apply_mute => simpa [step, propsCount] using h

theorem foldl_preserves {α β : Type} (P : β → Prop) (f : β → α → β)
    (hstep : ∀ b a, P b → P (f b a)) :
    ∀ (l : List α) (b : β), P b → P (l.foldl f b) := by
  intro l
  induction l with
  | nil => exact fun b hb => hb
  | cons a t ih => exact fun b hb => ih _ (hstep _ _ hb)

theorem runEvents_props_le_one (sources : List (String × Int))
    (es : List UIEvent) : propsCount (runEvents sources es).1 ≤ 1 := by
  refine foldl_preserves (fun p => propsCount p.1 ≤ 1) stepPair ?_ es _ ?_
  · exact fun p e hp => step_props_le_one p.1 e hp
  · have h0 : propsCount (initUI sources).1 = 0 := rfl
    omega

theorem runEvents_selected_camera_mode (sources : List (String × Int))
    (es : List UIEvent) :
    ∃ m : OperatingMode,
      (runEvents sources es).1.selected_camera_mode = OperatingMode.value m := by
  refine foldl_preserves
    (fun p => ∃ m : OperatingMode,
      p.1.selected_camera_mode = OperatingMode.value m) stepPair ?_ es _ ?_
  · intro p e hp
    rcases step_selected_camera_mode p.1 e with heq | hm
    · rcases hp with ⟨m, hm⟩
      exact ⟨m, heq.trans hm⟩
    · exact hm
  · exact ⟨OperatingMode.rearviewMirror, rfl⟩

theorem OperatingMode.value_inj (m m' : OperatingMode)
    (h : OperatingMode.value m = OperatingMode.value m') : m = m' := by
  cases m <;> cases m' <;> revert h <;> decide

/- ### C5 -/

/-- C5: after construction and before any user action, the mode variable
holds the Rearview-mirror radio value, the mode label reads
`REARVIEW MIRROR`, and the menubar carries no Configuration cascade. -/
theorem startup_mode_is_rearview_mirror (sources : List (String × Int)) :
    (initUI sources).1.selected_camera_mode =
      OperatingMode.value OperatingMode.rearviewMirror ∧
    (initUI sources).1.mode_label = "REARVIEW MIRROR" ∧
    "Configuration" ∉ (initUI sources).1.menubar := by
  refine ⟨rfl, rfl, ?_⟩
  show "Configuration" ∉ ["tearoff", "Mode", "Source"]
  decide

/- ### C6 -/

/-- C6: in every reachable UI state the mode variable holds the radio value
of exactly one of the three operating modes, and from any reachable state a
single mode-switch request reaches any requested mode — the transition
relation is total. -/
theorem camera_mode_unique_and_transitions_total
    (sources : List (String × Int)) (es : List UIEvent) :
    (∃! m : OperatingMode,
      (runEvents sources es).1.selected_camera_mode = OperatingMode.value m) ∧
    ∀ m : OperatingMode,
      (step (runEvents sources es).1 (UIEvent.select_mode m)).1.selected_camera_mode =
        OperatingMode.value m := by
  constructor
  · rcases runEvents_selected_camera_mode sources es with ⟨m, hm⟩
    exact ⟨m, hm, fun m' hm' => OperatingMode.value_inj m' m (hm'.symm.trans hm)⟩
  · exact fun m => step_select_mode_value _ m

/- ### C8 -/

/-- C8: in every reachable UI state at most one of the three properties
frames is placed; handling any `Open ... properties` command leaves exactly
that frame placed; and handling any mode switch leaves no frame placed. -/
theorem at_most_one_properties_frame_visible
    (sources : List (String × Int)) (es : List UIEvent) :
    propsCount (runEvents sources es).1 ≤ 1 ∧
    (∀ m : OperatingMode,
      propsCount (step (runEvents sources es).1 (UIEvent.select_mode m)).1 = 0) ∧
    (propsCount (step (runEvents sources es).1 UIEvent.open_image_properties).1 = 1 ∧
      (step (runEvents sources es).1 UIEvent.open_image_properties).1.image_props_visible = true) ∧
    (propsCount (step (runEvents sources es).1 UIEvent.open_guidelines_properties).1 = 1 ∧
      (step (runEvents sources es).1 UIEvent.open_guidelines_properties).1.guidelines_props_visible = true) ∧
    (propsCount (step (runEvents sources es).1 UIEvent.open_detection_properties).1 = 1 ∧
      (step (runEvents sources es).1 UIEvent.open_detection_properties).1.detection_props_visible = true) := by
  have hinv := runEvents_props_le_one sources es
  set s := (runEvents sources es).1 with hs
  have h0 := (propsCount_eq_zero _).mp (hide_properties_frame_count s hinv)
  refine ⟨hinv, ?_, ?_, ?_, ?_⟩
  · intro m
    cases m with
    | parkAssistant => exact reload_default_layout_count _ hinv
    | rearviewMirror => exact reload_default_layout_count _ hinv
    | configuration => exact reload_default_layout_count _ hinv
  · exact ⟨by simp [step, propsCount, h0.1, h0.2.1, h0.2.2], by simp [step]⟩
  · exact ⟨by simp [step, propsCount, h0.1, h0.2.1, h0.2.2], by simp [step]⟩
  · exact ⟨by simp [step, propsCount, h0.1, h0.2.1, h0.2.2], by simp [step]⟩

/- ### C9 -/

/-- C9: handling a click of the `Guidlines hidden` checkbutton first toggles
the hidden flag and then forwards the flag's new value — the checked state of
the checkbox — as-is to `set_guidelines_visibility`: the handler receives
`true` exactly when the checkbox is checked, with no negation into a
visibility value. -/
theorem guidelines_hidden_flag_forwarded_as_is
    (sources : List (String × Int)) (es : List UIEvent) :
    (runEvents sources (es ++ [UIEvent.toggle_guidelines_hidden])).1.guidelines_hidden =
      !(runEvents sources es).1.guidelines_hidden ∧
    (runEvents sources (es ++ [UIEvent.toggle_guidelines_hidden])).2 =
      (runEvents sources es).2 ++
        [HandlerCall.set_guidelines_visibility
          ((runEvents sources (es ++ [UIEvent.toggle_guidelines_hidden])).1.guidelines_hidden)] := by
  unfold runEvents
  rw [List.foldl_append]
  exact ⟨rfl, rfl⟩

/- ### C10 -/

/-- C10: after construction and before any user action the source variable
holds the sentinel `-2` (the file-source sentinel, not the no-source sentinel
`-1`), and constructing the source menu makes no call into the event handler
— in particular no `set_source` callback fires at startup. -/
theorem startup_source_sentinel_no_callback (sources : List (String × Int)) :
    (initUI sources).1.selected_source_index = -2 ∧
    (initUI sources).1.selected_source_index ≠ -1 ∧
    (initUI sources).2 = [] :=
  ⟨rfl, fun h => by
    have h2 : (-2 : Int) = -1 := h
    norm_num at h2, rfl⟩

/- ### C7: mute affects only audible emission and the MUTED label -/

/-- Modelled from the spec: `AlertState.reason`
(`enum{None, ObstacleNear}`, §3) of the frame-processing core, which is not
under src/. -/
inductive AlertReason where
  | noAlert
  | obstacleNear
deriving DecidableEq, Repr

/-- Modelled from the spec: `AlertState` (§3), derived each tick from the
Detection Engine output. -/
structure AlertState where
  active : Bool
  reason : AlertReason
deriving DecidableEq, Repr

/-- Modelled from the spec: `DetectionProperties` (§3) — the mute flag and
the detection threshold and debounce parameters. -/
structure DetectionProperties where
  muted : Bool
  threshold : Nat
  debounceN : Nat
deriving DecidableEq, Repr

/-- Modelled from the spec: `GuidelineProperties` (§3); only the `visible`
flag matters here, the geometry being folded into the abstract `overlay`
function. -/
structure GuidelineProperties where
  visible : Bool
deriving DecidableEq, Repr

/-- Modelled from the spec: the Mode Controller's stage table (§4.6) —
ParkAssistant enables guidelines and detection, RearviewMirror guidelines
only, Configuration neither. -/
def activeStages : OperatingMode → Bool × Bool
  | .parkAssistant => (true, true)
  | .rearviewMirror => (true, false)
  | .configuration => (false, false)

/-- Modelled from the spec: one Detection Engine step (§4.4) — the private
run-length counter grows on a reading beyond the threshold and resets on any
other reading; `triggered` requires the debounce count of consecutive
beyond-threshold ticks.  The mute flag plays no part: detection runs
regardless of mute. -/
def detectStep (dp : DetectionProperties) (run : Nat) (proximity : Nat) :
    Nat × Bool :=
  if proximity < dp.threshold then
    (run + 1, decide (dp.debounceN ≤ run + 1))
  else (0, false)

/-- Modelled from the spec: the per-tick output of the Frame Pipeline (§4.7):
the composited frame, the `AlertState`, and the Detection Engine's run-length
counter carried to the next tick.  Audible emission is computed downstream by
`audibleEmission`, not here — mute suppresses only the audible emission, not
the returned classification. -/
structure TickOutput where
  frame : Mat
  alert : AlertState
  run : Nat
deriving DecidableEq, Repr

/-- Modelled from the spec: one `tick()` of the Frame Pipeline (§4.7, steps
1–6): read the mode's stage flags, condition the frame, overlay guidelines
when that stage is active and visible, run detection when that stage is
active, and derive the `AlertState` from `triggered`.  `condition`, `overlay`
and `proximityOf` abstract the image-conditioning stage, the guideline
renderer and the Detection Engine's proximity measurement. -/
def pipelineTick (condition : Mat → Mat) (overlay : Mat → Mat)
    (proximityOf : Mat → Nat) (mode : OperatingMode)
    (gp : GuidelineProperties) (dp : DetectionProperties)
    (run0 : Nat) (frame : Mat) : TickOutput :=
  let flags := activeStages mode
  let f1 := condition frame
  let f2 := if flags.1 && gp.visible then overlay f1 else f1
  let (run1, triggered) :=
    if flags.2 then detectStep dp run0 (proximityOf f2) else (run0, false)
  { frame := f2
    alert :=
      { active := triggered
        reason := if triggered then AlertReason.obstacleNear else AlertReason.noAlert }
    run := run1 }

/-- Modelled from the spec: the audible-emission decision made downstream of
`tick()` (§4.7 step 5): an alert is emitted audibly iff it is active and
sounds are not muted. -/
def audibleEmission (dp : DetectionProperties) (a : AlertState) : Bool :=
  a.active && !dp.muted

/-- The pipeline run over a frame sequence, threading the Detection Engine's
run-length counter. -/
def pipelineRun (condition : Mat → Mat) (overlay : Mat → Mat)
    (proximityOf : Mat → Nat) (mode : OperatingMode)
    (gp : GuidelineProperties) (dp : DetectionProperties) :
    Nat → List Mat → List TickOutput
  | _, [] => []
  | run0, f :: fs =>
      let o := pipelineTick condition overlay proximityOf mode gp dp run0 f
      o :: pipelineRun condition overlay proximityOf mode gp dp o.run fs

theorem pipelineTick_muted_irrelevant (condition overlay : Mat → Mat)
    (proximityOf : Mat → Nat) (mode : OperatingMode)
    (gp : GuidelineProperties) (dp : DetectionProperties) (b : Bool)
    (run0 : Nat) (frame : Mat) :
    pipelineTick condition overlay proximityOf mode gp { dp with muted := b }
        run0 frame =
      pipelineTick condition overlay proximityOf mode gp dp run0 frame := rfl

theorem pipelineRun_muted_irrelevant (condition overlay : Mat → Mat)
    (proximityOf : Mat → Nat) (mode : OperatingMode)
    (gp : GuidelineProperties) (dp : DetectionProperties) (b : Bool) :
    ∀ (frames : List Mat) (run0 : Nat),
      pipelineRun condition overlay proximityOf mode gp { dp with muted := b }
          run0 frames =
        pipelineRun condition overlay proximityOf mode gp dp run0 frames := by
  intro frames
  induction frames with
  | nil => intro run0; rfl
  | cons f fs ih =>
      intro run0
      simp only [pipelineRun, pipelineTick_muted_irrelevant]
      rw [ih]

/-- C7: toggling mute changes only the audible-emission behaviour and the
on-screen MUTED indication.  For the same underlying frame sequence, the
pipeline outputs — displayed frames, `AlertState.active`/`reason` and the
debounce state — are identical whatever the mute flag; the audible emission
is exactly `active && !muted`; and handling `mute()` leaves the MUTED label
visible iff the mute flag is set. -/
theorem mute_changes_only_audible_emission (condition overlay : Mat → Mat)
    (proximityOf : Mat → Nat) (mode : OperatingMode)
    (gp : GuidelineProperties) (dp : DetectionProperties) (b : Bool)
    (run0 : Nat) (frames : List Mat) (a : AlertState) (s : UIState) :
    pipelineRun condition overlay proximityOf mode gp { dp with muted := b }
        run0 frames =
      pipelineRun condition overlay proximityOf mode gp dp run0 frames ∧
    audibleEmission { dp with muted := b } a = (a.active && !b) ∧
    (step s UIEvent.apply_mute).1.mute_label_visible = s.mute_sounds :=
  ⟨pipelineRun_muted_irrelevant condition overlay proximityOf mode gp dp b
      frames run0,
   rfl, rfl⟩

end BackupCamera
